import Mathlib

/-!
Verification of the INGEST phase of the rnaseq pipeline
(src/INGEST_PHASE/ingest_phase.py).

The Python source is shallowly embedded below.  A file on disk is modelled
by `PyFile`: `text` is the file decoded as a list of lines (with the line
terminator removed, as produced by iterating over a Python file object or
by `readlines` followed by `strip`), `bytes` is the raw byte content used
by the binary (BAM) reader, and `onDisk`/`size` model `Path.stat()`.
`text = none` (resp. `bytes = none`) models a file whose `open`/read raises
an `OSError` (nonexistent or unreadable file); `onDisk = false` models a
path for which `Path.stat()` raises `FileNotFoundError`.

Functions that can propagate a Python exception to their caller are
embedded in `Except String`; a `.error` value is a raised exception.

Diagnostic message strings are kept close to the source but abbreviated
where Python renders runtime values (set literals, float `repr`) whose
exact text no claim depends on; quote characters inside messages are
elided.  `file_size_mb` is a float-valued display field derived from
`file_size` and is not modelled (floating point); `check_and_install_samtools`
and all logging are environment setup / logging only and are not modelled.
-/

set_option autoImplicit false

namespace Ingest

/-! ### Python string primitives -/

/-- Whitespace characters stripped by Python `str.strip()`. -/
def isPySpace (c : Char) : Bool :=
  c == ' ' || c == '\t' || c == '\n' || c == '\r' || c == '\x0b' || c == '\x0c'

def pyStripL (l : List Char) : List Char :=
  ((l.dropWhile isPySpace).reverse.dropWhile isPySpace).reverse

/-- Python `str.strip()`. -/
def pyStrip (s : String) : String :=
  String.mk (pyStripL s.data)

/-- Does `pre` match the front of `l`? (helper for `startswith` / `in`). -/
def leadMatch : List Char → List Char → Bool
  | [], _ => true
  | _ :: _, [] => false
  | a :: as, b :: bs => a == b && leadMatch as bs

/-- Python `s.startswith(pre)`. -/
def pyStarts (s pre : String) : Bool :=
  leadMatch pre.data s.data

def listHas (needle : List Char) : List Char → Bool
  | [] => leadMatch needle []
  | c :: rest => leadMatch needle (c :: rest) || listHas needle rest

/-- Python `needle in hay` for strings. -/
def strHas (hay needle : String) : Bool :=
  listHas needle.data hay.data

/-- Python `s.split(sep)` for a single-character separator:
`""` splits to `[""]`, separators are not grouped. -/
def chSplit (sep : Char) : List Char → List (List Char)
  | [] => [[]]
  | c :: rest =>
    if c == sep then [] :: chSplit sep rest
    else
      match chSplit sep rest with
      | g :: gs => (c :: g) :: gs
      | [] => [[c]]

def pySplit (sep : Char) (s : String) : List String :=
  (chSplit sep s.data).map String.mk

/-- Python `line.split(chr(9))`, the tab split used by all tabular readers. -/
def pySplitT (s : String) : List String :=
  pySplit '\t' s

/-- Python `s.split()` (split on whitespace runs, dropping empty fields). -/
def wsSplitAux : List Char → List Char → List (List Char)
  | [], cur => if cur.isEmpty then [] else [cur.reverse]
  | c :: rest, cur =>
    if isPySpace c then
      if cur.isEmpty then wsSplitAux rest [] else cur.reverse :: wsSplitAux rest []
    else wsSplitAux rest (c :: cur)

def pyWsSplit (s : String) : List String :=
  (wsSplitAux s.data []).map String.mk

/-- Python `s[:20]`, used when echoing a bad header line. -/
def pyTake20 (s : String) : String :=
  String.mk (s.data.take 20)

def natOfDigits (l : List Char) : Nat :=
  l.foldl (fun a c => 10 * a + (c.toNat - 48)) 0

def allDigits (l : List Char) : Bool :=
  l.all Char.isDigit

/-- The value produced by a successful Python `float()` parse, kept as the
exact decimal `num / 10 ^ exp` (unnormalized, so all comparisons reduce in
the kernel).  The validators only ask two questions of the value — is it
negative, and is it non-integral — and on the decimal literals this phase
parses those two answers agree with binary floating point. -/
structure DecVal where
  num : Int
  exp : Nat
deriving Repr, DecidableEq

/-- Python `val < 0`. -/
def DecVal.isNeg (v : DecVal) : Bool := v.num < 0

/-- Python `val != int(val)` (truncation toward zero leaves the value
unchanged exactly when the fractional digits vanish). -/
def DecVal.isNonInt (v : DecVal) : Bool := v.num % ((10 : Int) ^ v.exp) ≠ 0

/-- Python `float(s)` on the plain decimal literals this phase feeds it
(optional sign, digits with an optional single decimal point); `none`
models a raised `ValueError`.  Exponent / inf / nan forms never appear in
the validated fields and are not modelled. -/
def pyFloat (s : String) : Option DecVal :=
  let t := (pyStrip s).data
  let signed : Bool × List Char :=
    match t with
    | '-' :: r => (true, r)
    | '+' :: r => (false, r)
    | r => (false, r)
  let u := signed.2
  let core : Option DecVal :=
    if u.contains '.' then
      let ip := u.takeWhile (fun c => c ≠ '.')
      let fp := (u.dropWhile (fun c => c ≠ '.')).drop 1
      if fp.contains '.' then none
      else if allDigits ip && allDigits fp && !(ip ++ fp).isEmpty then
        some ⟨(natOfDigits ip * 10 ^ fp.length + natOfDigits fp : Nat), fp.length⟩
      else none
    else if allDigits u && !u.isEmpty then some ⟨(natOfDigits u : Nat), 0⟩
    else none
  core.map (fun v => if signed.1 then ⟨-v.num, v.exp⟩ else v)

/-- Python `int(s)` on signed decimal digit strings; `none` models a raised
`ValueError`. -/
def pyInt (s : String) : Option Int :=
  let t := (pyStrip s).data
  match t with
  | '-' :: r => if allDigits r && !r.isEmpty then some (-(natOfDigits r : Int)) else none
  | '+' :: r => if allDigits r && !r.isEmpty then some (natOfDigits r : Int) else none
  | r => if allDigits r && !r.isEmpty then some (natOfDigits r : Int) else none

/-- Python `s.isalnum()` after the probe-id separator stripping: nonempty
and all alphanumeric. -/
def pyIsAlnum (l : List Char) : Bool :=
  !l.isEmpty && l.all Char.isAlphanum

/-- Python `str.lower()` on the ASCII header/extension strings this phase
lowercases. -/
def pyLowerChar (c : Char) : Char :=
  if 65 ≤ c.toNat ∧ c.toNat ≤ 90 then Char.ofNat (c.toNat + 32) else c

def pyLower (s : String) : String :=
  String.mk (s.data.map pyLowerChar)

/-- Scan for `str.replace`: at `skip = 0` try to match the needle at the
current position; on a match emit the replacement and skip the rest of the
needle (left-to-right, non-overlapping, as in Python). -/
def pyReplaceAux (needle repl : List Char) : List Char → Nat → List Char
  | [], _ => []
  | c :: rest, skip =>
    match skip with
    | k + 1 => pyReplaceAux needle repl rest k
    | 0 =>
      if leadMatch needle (c :: rest) && !needle.isEmpty then
        repl ++ pyReplaceAux needle repl rest (needle.length - 1)
      else c :: pyReplaceAux needle repl rest 0

/-- Python `s.replace(needle, repl)` (for the nonempty needles used by the
sample-name stripping). -/
def pyReplace (s needle repl : String) : String :=
  String.mk (pyReplaceAux needle.data repl.data s.data 0)

def pyJoin (sep : String) : List String → String
  | [] => ""
  | [x] => x
  | x :: y :: rest => x ++ sep ++ pyJoin sep (y :: rest)

/-- `Path(name).stem`: the file name with its last suffix removed. -/
def pyStem (n : String) : String :=
  let parts := pySplit '.' n
  if parts.length ≤ 1 then n
  else pyJoin "." parts.dropLast

/-! ### The file model and the result record -/

structure PyFile where
  /-- File name (`Path.name`). -/
  name : String
  /-- File suffix (`Path.suffix`), e.g. `".fastq"`. -/
  ext : String
  /-- Whether `Path.stat()` succeeds. -/
  onDisk : Bool
  /-- `Path.stat().st_size`. -/
  size : Nat
  /-- Decoded text lines; `none` when opening/reading the file raises. -/
  text : Option (List String)
  /-- Raw bytes for binary reads; `none` when opening the file raises. -/
  bytes : Option (List Nat)
deriving Repr, DecidableEq

/-- `Path.stat()`: raises `FileNotFoundError` for a path not on disk. -/
def stat (f : PyFile) : Except String Nat :=
  if f.onDisk then Except.ok f.size else Except.error "FileNotFoundError"

/-- The `IngestResult` dataclass (the Validation Record).  `file_size_mb`
(a derived float display field) is not modelled; `timestamp` is passed in
by the caller as the current time. -/
structure IngestResult where
  dataset_id : String
  input_type : String
  file_path : String
  file_size : Nat
  validation_status : String
  validation_message : String
  file_count : Nat
  sample_name : String
  is_paired_end : Option Bool := none
  detected_format : Option String := none
  total_reads : Option Int := none
  sequence_length : Option Nat := none
  timestamp : String := ""
deriving Repr, DecidableEq

/-! ### Expert validation methods (header / magic confirmation) -/

/-- The nucleotide alphabet accepted by the FASTQ checks. -/
def nucOk (c : Char) : Bool :=
  "ACGTNacgtnRYWSKMBDHVryswkmbdhv".data.contains c

/-- The four `readline().strip()` results of `validate_fastq_header`:
Python `readline` returns `""` at end of file, so missing lines become
empty strings. -/
def fqHeaderLines (ls : List String) : List String :=
  (List.range 4).map (fun i => pyStrip (ls.getD i ""))

/-- `IngestPhase.validate_fastq_header`.  The `.gz` branch only changes how
the text is decoded, which the `text` field already abstracts. -/
def validate_fastq_header (f : PyFile) : Bool × String :=
  match f.text with
  | none => (false, "Error validating FASTQ: unreadable file")
  | some ls =>
    let lines := fqHeaderLines ls
    if lines.length < 4 then
      (false, "File has fewer than 4 lines (incomplete FASTQ record)")
    else
      let header := lines.getD 0 ""
      let seq := lines.getD 1 ""
      let plus := lines.getD 2 ""
      let qual := lines.getD 3 ""
      if !pyStarts header "@" then
        (false, "Header line must start with @, got: " ++ pyTake20 header)
      else if !pyStarts plus "+" then
        (false, "Plus line must start with +, got: " ++ pyTake20 plus)
      else if !(seq.data.all nucOk) then
        (false, "Sequence contains invalid nucleotides")
      else if seq.length ≠ qual.length then
        (false, "Sequence length " ++ toString seq.length ++
          " is not equal to quality length " ++ toString qual.length)
      else if qual.data.any (fun c => c.toNat < 33 || 126 < c.toNat) then
        (false, "Quality scores contain invalid ASCII characters")
      else (true, "Valid FASTQ format detected")

/-- `IngestPhase.validate_bam_magic`: the first four bytes must equal
`BAM` followed by byte 1 (`66, 65, 77, 1`). -/
def validate_bam_magic (f : PyFile) : Bool × String :=
  match f.bytes with
  | none => (false, "Error validating BAM: unreadable file")
  | some bs =>
    if bs.take 4 = [66, 65, 77, 1] then
      (true, "Valid BAM magic number detected")
    else (false, "Invalid BAM magic number")

/-- `IngestPhase.validate_cell_header`: reads only the first line. -/
def validate_cell_header (f : PyFile) : Bool × String :=
  match f.text with
  | none => (false, "Error validating CELL: unreadable file")
  | some ls =>
    let header := pySplitT (pyStrip (ls.headD ""))
    let hlow := header.map pyLower
    let hasProbe := hlow.any (fun h => strHas h "probe")
    let hasIntensity := hlow.any (fun h => strHas h "intensity" || strHas h "signal")
    if !hasProbe then (false, "CELL data must have probe_id column")
    else if !hasIntensity then (false, "CELL data must have intensity or signal columns")
    else if header.length < 3 then
      (false, "CELL data must have at least 3 columns (probe_id, gene_symbol, intensity)")
    else (true, "Valid CELL microarray format detected")

/-- Append an error under the five-message cap of
`validate_count_matrix_structure` (`if len(errors) < 5`). -/
def app5 (errs : List String) (e : String) : List String :=
  if errs.length < 5 then errs ++ [e] else errs

/-- One data row of `validate_count_matrix_structure`. -/
def cmsRow (colCount lineNum : Nat) (l : String) (errs0 : List String) : List String :=
  let fields := pySplitT (pyStrip l)
  let e1 :=
    if fields.length ≠ colCount then
      app5 errs0 ("Line " ++ toString lineNum ++ ": Column count " ++
        toString fields.length ++ " is not the header count " ++ toString colCount)
    else errs0
  let e2 :=
    if pyStrip (fields.headD "") = "" then
      app5 e1 ("Line " ++ toString lineNum ++ ": Empty gene ID")
    else e1
  ((List.range fields.length).drop 1).foldl
    (fun ac i =>
      match pyFloat (fields.getD i "") with
      | some v =>
        if v.isNeg then app5 ac ("Line " ++ toString lineNum ++ ": Negative count value")
        else ac
      | none =>
        app5 ac ("Line " ++ toString lineNum ++ ": Non-numeric value " ++ fields.getD i ""))
    e2

def cmsRows : List String → Nat → Nat → List String → List String
  | [], _, _, errs => errs
  | l :: rest, lineNum, colCount, errs =>
    cmsRows rest (lineNum + 1) colCount (cmsRow colCount lineNum l errs)

/-- `IngestPhase.validate_count_matrix_structure`: reads the whole file
(`readlines`) and checks every data row.  The gene-column-name inspection
of the header only logs a warning and is not part of the verdict. -/
def validate_count_matrix_structure (f : PyFile) : Bool × String :=
  match f.text with
  | none => (false, "Error validating count matrix: unreadable file")
  | some ls =>
    if ls.length < 2 then
      (false, "Count matrix must have at least header + 1 data row")
    else
      let header := pySplitT (pyStrip (ls.headD ""))
      if header.length < 2 then
        (false, "Count matrix must have at least 2 columns (gene_id + sample)")
      else
        let errs := cmsRows (ls.drop 1) 2 header.length []
        if errs ≠ [] then
          (false, "Matrix validation errors: " ++ pyJoin "; " errs)
        else (true, "Valid count matrix format")

/-! ### Step 2: detect_input_type (the Sniffer) -/

def fastqExts : List String := [".fastq", ".fq", ".gz"]

def tabularExt (e : String) : Bool :=
  e == ".tsv" || e == ".csv" || e == ".txt"

/-- `IngestPhase.detect_input_type`.  The Python body is a sequence of
`if` statements each of which may fall through to the next, ending in
`UNKNOWN`; that fallthrough chain is expressed with the two `let` stages. -/
def detect_input_type (f : PyFile) : String × String :=
  let extension := pyLower f.ext
  let tabularRes : String × String :=
    if tabularExt extension then
      if (validate_cell_header f).1 then ("CELL", "CELL Microarray Data")
      else if (validate_count_matrix_structure f).1 then
        ("MATRIX", "Count Matrix (Processed Expression Data)")
      else ("UNKNOWN", "Unknown format")
    else ("UNKNOWN", "Unknown format")
  let bamRes : String × String :=
    if extension == ".bam" then
      if (validate_bam_magic f).1 then ("BAM", "BAM (Binary Alignment Map)")
      else tabularRes
    else tabularRes
  if fastqExts.contains extension && (strHas f.name "fastq" || strHas f.name "fq") then
    if (validate_fastq_header f).1 then
      ("FASTQ", if extension ≠ ".gz" then "FASTQ (uncompressed)" else "FASTQ (gzip compressed)")
    else bamRes
  else bamRes

/-! ### Step 3a: parse_fastq -/

structure FqState where
  buf : List String
  cnt : Nat
  errs : List String
  lens : List Nat
deriving Repr, DecidableEq

/-- The per-record checks of the `parse_fastq` reading loop; the
invalid-nucleotide finding is only recorded for the first five records. -/
def fqRecordErrs (cnt : Nat) (header seq plus qual : String) : List String :=
  (if pyStarts header "@" then []
   else ["Read " ++ toString cnt ++ ": Header must start with @"]) ++
  (if pyStarts plus "+" then []
   else ["Read " ++ toString cnt ++ ": Plus line must start with +"]) ++
  (if seq.length = qual.length then []
   else ["Read " ++ toString cnt ++ ": Seq length " ++ toString seq.length ++
     " is not equal to qual length " ++ toString qual.length]) ++
  (if !(seq.data.all nucOk) && cnt ≤ 5 then
     ["Read " ++ toString cnt ++ ": Invalid nucleotides"]
   else [])

/-- The `parse_fastq` reading loop: lines are buffered four at a time; a
complete record is checked and counted, and the loop breaks once
`read_count > 1000`.  In the text model `line.rstrip(newline)` is the
identity, since lines carry no terminator. -/
def fastqLoop : List String → FqState → FqState
  | [], st => st
  | l :: rest, st =>
    let buf := st.buf ++ [l]
    match buf with
    | [header, seq, plus, qual] =>
      let cnt := st.cnt + 1
      let errs := st.errs ++ fqRecordErrs cnt header seq plus qual
      let lens := st.lens ++ [seq.length]
      if cnt > 1000 then ⟨buf, cnt, errs, lens⟩
      else fastqLoop rest ⟨[], cnt, errs, lens⟩
    | _ => fastqLoop rest { st with buf := buf }

def pairToks : List String := ["_R1", "_R2", "_1", "_2", ".1", ".2"]

/-- `IngestPhase.parse_fastq`.  The outer `try`/`except` is the final
`match`: an exception inside the body is caught and converted to a FAIL
record, but building that record itself calls `Path.stat()`, which can
re-raise. -/
def parse_fastq (now : String) (f : PyFile) : Except String IngestResult :=
  let sample_name := pyReplace (pyReplace (pyReplace (pyStem f.name) ".fastq" "") ".fq" "") ".gz" ""
  let hv := validate_fastq_header f
  let attempt : Except String IngestResult :=
    if !hv.1 then
      match stat f with
      | Except.error e => Except.error e
      | Except.ok sz =>
        Except.ok
          { dataset_id := sample_name, input_type := "FASTQ", file_path := f.name
            file_size := sz, validation_status := "FAIL"
            validation_message := "Header validation failed: " ++ hv.2
            file_count := 1, sample_name := sample_name, timestamp := now }
    else
      match f.text with
      | none => Except.error "IOError"
      | some ls =>
        let st := fastqLoop ls ⟨[], 0, [], []⟩
        let isPaired := pairToks.any (fun t => strHas f.name t)
        let avg : Nat := if st.lens.length ≠ 0 then st.lens.sum / st.lens.length else 0
        let sm : String × String :=
          if st.errs ≠ [] then
            (if st.errs.length > 10 then "FAIL" else "WARN",
             "Found " ++ toString st.errs.length ++ " validation errors")
          else ("PASS", "FASTQ validation successful")
        match stat f with
        | Except.error e => Except.error e
        | Except.ok sz =>
          Except.ok
            { dataset_id := sample_name, input_type := "FASTQ", file_path := f.name
              file_size := sz, validation_status := sm.1, validation_message := sm.2
              file_count := 1, sample_name := sample_name
              is_paired_end := some isPaired
              detected_format := some (if isPaired then "FASTQ (Paired-end)" else "FASTQ (Single-end)")
              total_reads := some (st.cnt : Int), sequence_length := some avg
              timestamp := now }
  match attempt with
  | Except.ok r => Except.ok r
  | Except.error e =>
    match stat f with
    | Except.error e2 => Except.error e2
    | Except.ok sz =>
      Except.ok
        { dataset_id := sample_name, input_type := "FASTQ", file_path := f.name
          file_size := sz, validation_status := "FAIL"
          validation_message := "Parsing error: " ++ e
          file_count := 1, sample_name := sample_name, timestamp := now }

/-! ### Step 3b: parse_bam -/

/-- Outcome of the `samtools flagstat` subprocess: not installed
(`FileNotFoundError`), any other raised error (e.g. timeout), or an exit
with a return code and captured stdout. -/
inductive ToolOutcome where
  | unavailable : ToolOutcome
  | raisesErr : ToolOutcome
  | exited (returncode : Int) (stdout : String) : ToolOutcome
deriving Repr, DecidableEq

/-- `int(result.stdout.strip().split(newline)[0].split()[0])`: `none`
models the `IndexError`/`ValueError` that the surrounding `except` catches. -/
def flagstatTotal (out : String) : Option Int :=
  let lines := pySplit '\n' (pyStrip out)
  match pyWsSplit (lines.headD "") with
  | [] => none
  | t :: _ => pyInt t

/-- `IngestPhase.parse_bam`.  When the magic bytes are valid, any tool
failure (missing tool, raised error, non-zero exit, unparsable stdout)
falls back to PASS with the enrichment fields absent. -/
def parse_bam (now : String) (tool : ToolOutcome) (f : PyFile) : Except String IngestResult :=
  let sample_name := pyReplace (pyStem f.name) ".bam" ""
  let mv := validate_bam_magic f
  let attempt : Except String IngestResult :=
    if !mv.1 then
      match stat f with
      | Except.error e => Except.error e
      | Except.ok sz =>
        Except.ok
          { dataset_id := sample_name, input_type := "BAM", file_path := f.name
            file_size := sz, validation_status := "FAIL"
            validation_message := "Magic bytes validation failed: " ++ mv.2
            file_count := 1, sample_name := sample_name, timestamp := now }
    else
      let fallback : String × String × Option Int × Option Bool :=
        ("PASS", "BAM magic number valid (samtools unavailable for read count)", none, none)
      let smtp : String × String × Option Int × Option Bool :=
        match tool with
        | ToolOutcome.exited rc out =>
          if rc = 0 then
            match flagstatTotal out with
            | some n =>
              ("PASS", "BAM validation successful (" ++ toString n ++ " reads)",
               some n, some (decide (0 < n)))
            | none => fallback
          else fallback
        | _ => fallback
      match stat f with
      | Except.error e => Except.error e
      | Except.ok sz =>
        Except.ok
          { dataset_id := sample_name, input_type := "BAM", file_path := f.name
            file_size := sz, validation_status := smtp.1
            validation_message := smtp.2.1
            file_count := 1, sample_name := sample_name
            is_paired_end := smtp.2.2.2
            detected_format := some "BAM (Binary Alignment Map)"
            total_reads := smtp.2.2.1, timestamp := now }
  match attempt with
  | Except.ok r => Except.ok r
  | Except.error e =>
    match stat f with
    | Except.error e2 => Except.error e2
    | Except.ok sz =>
      Except.ok
        { dataset_id := sample_name, input_type := "BAM", file_path := f.name
          file_size := sz, validation_status := "FAIL"
          validation_message := "Parsing error: " ++ e
          file_count := 1, sample_name := sample_name, timestamp := now }

/-! ### Step 3c: parse_cell -/

structure CellState where
  errs : List String
  rows : Nat
  cols : Nat
deriving Repr, DecidableEq

/-- One line of the `parse_cell` reading loop (`lineNum` is the 0-based
`enumerate` index; the header line fixes the column count). -/
def cellLoop : List String → Nat → CellState → CellState
  | [], _, st => st
  | l :: rest, lineNum, st =>
    let fields := pySplitT (pyStrip l)
    if lineNum = 0 then
      let cols := fields.length
      let errs := st.errs ++
        (if cols < 3 then ["CELL data must have at least 3 columns"] else [])
      cellLoop rest (lineNum + 1) ⟨errs, st.rows, cols⟩
    else
      let rows := st.rows + 1
      let e1 :=
        if fields.length ≠ st.cols && rows ≤ 5 then
          ["Line " ++ toString lineNum ++ ": Column count mismatch (" ++
            toString fields.length ++ " vs " ++ toString st.cols ++ ")"]
        else []
      let probe := fields.headD ""
      let e2 :=
        if !pyIsAlnum (probe.data.filter (fun c => c ≠ '_' && c ≠ '-')) && rows ≤ 5 then
          ["Line " ++ toString lineNum ++ ": Invalid probe ID format: " ++ probe]
        else []
      let e3 :=
        ((List.range (min fields.length st.cols)).drop 2).foldl
          (fun ac i =>
            match pyFloat (fields.getD i "") with
            | some v =>
              if v.isNeg && rows ≤ 5 then
                ac ++ ["Line " ++ toString lineNum ++ ": Negative intensity value"]
              else ac
            | none =>
              if rows ≤ 5 then
                ac ++ ["Line " ++ toString lineNum ++ ", Col " ++ toString i ++
                  ": Non-numeric value " ++ fields.getD i ""]
              else ac)
          []
      cellLoop rest (lineNum + 1) ⟨st.errs ++ e1 ++ e2 ++ e3, rows, st.cols⟩

/-- `IngestPhase.parse_cell`. -/
def parse_cell (now : String) (f : PyFile) : Except String IngestResult :=
  let sample_name := pyStem f.name
  let hv := validate_cell_header f
  let attempt : Except String IngestResult :=
    if !hv.1 then
      match stat f with
      | Except.error e => Except.error e
      | Except.ok sz =>
        Except.ok
          { dataset_id := sample_name, input_type := "CELL", file_path := f.name
            file_size := sz, validation_status := "FAIL"
            validation_message := "Header validation failed: " ++ hv.2
            file_count := 1, sample_name := sample_name, timestamp := now }
    else
      match f.text with
      | none => Except.error "IOError"
      | some ls =>
        let st := cellLoop ls 0 ⟨[], 0, 0⟩
        let sm : String × String :=
          if st.errs ≠ [] then
            (if st.errs.length > 10 then "FAIL" else "WARN",
             "Found " ++ toString st.errs.length ++ " validation errors")
          else ("PASS", "CELL data validation successful")
        match stat f with
        | Except.error e => Except.error e
        | Except.ok sz =>
          Except.ok
            { dataset_id := sample_name, input_type := "CELL", file_path := f.name
              file_size := sz, validation_status := sm.1, validation_message := sm.2
              file_count := 1, sample_name := sample_name
              detected_format := some "CELL Microarray Data"
              total_reads := some (st.rows : Int), sequence_length := some st.cols
              timestamp := now }
  match attempt with
  | Except.ok r => Except.ok r
  | Except.error e =>
    match stat f with
    | Except.error e2 => Except.error e2
    | Except.ok sz =>
      Except.ok
        { dataset_id := sample_name, input_type := "CELL", file_path := f.name
          file_size := sz, validation_status := "FAIL"
          validation_message := "Parsing error: " ++ e
          file_count := 1, sample_name := sample_name, timestamp := now }

/-! ### Step 3d: parse_count_matrix -/

/-- The per-value check of the `parse_count_matrix` body loop: a negative
value is a validation error (recorded for the first five rows); a
non-integer value only triggers `logger.warning` and is never recorded; a
non-numeric value is a validation error (recorded for the first five rows). -/
def mtxValCheck (rows lineNum : Nat) (v : String) : List String :=
  match pyFloat v with
  | some x =>
    if x.isNeg && rows ≤ 5 then
      ["Line " ++ toString lineNum ++ ": Negative count"]
    else []
  | none =>
    if rows ≤ 5 then
      ["Line " ++ toString lineNum ++ ": Non-numeric value " ++ v]
    else []

structure MtxState where
  errs : List String
  rows : Nat
  cols : Nat
deriving Repr, DecidableEq

/-- The `parse_count_matrix` body loop; a line starting with a comma is
split on commas instead of tabs. -/
def mtxLoop : List String → Nat → MtxState → MtxState
  | [], _, st => st
  | l :: rest, lineNum, st =>
    let fields := if pyStarts l "," then pySplit ',' (pyStrip l) else pySplitT (pyStrip l)
    if lineNum = 0 then
      let cols := fields.length
      let errs := st.errs ++
        (if cols < 2 then ["Matrix must have at least 2 columns (gene_id + samples)"] else [])
      mtxLoop rest (lineNum + 1) ⟨errs, st.rows, cols⟩
    else
      let rows := st.rows + 1
      let e1 :=
        if fields.length ≠ st.cols && rows ≤ 5 then
          ["Line " ++ toString lineNum ++ ": Column count mismatch"]
        else []
      let e2 :=
        if fields.headD "" = "" && rows ≤ 5 then
          ["Line " ++ toString lineNum ++ ": Empty gene ID"]
        else []
      let e3 :=
        ((List.range fields.length).drop 1).foldl
          (fun ac i => ac ++ mtxValCheck rows lineNum (fields.getD i "")) []
      mtxLoop rest (lineNum + 1) ⟨st.errs ++ e1 ++ e2 ++ e3, rows, st.cols⟩

/-- `IngestPhase.parse_count_matrix`. -/
def parse_count_matrix (now : String) (f : PyFile) : Except String IngestResult :=
  let sample_name := pyStem f.name
  let sv := validate_count_matrix_structure f
  let attempt : Except String IngestResult :=
    if !sv.1 then
      match stat f with
      | Except.error e => Except.error e
      | Except.ok sz =>
        Except.ok
          { dataset_id := sample_name, input_type := "MATRIX", file_path := f.name
            file_size := sz, validation_status := "FAIL"
            validation_message := "Structure validation failed: " ++ sv.2
            file_count := 1, sample_name := sample_name, timestamp := now }
    else
      match f.text with
      | none => Except.error "IOError"
      | some ls =>
        let st := mtxLoop ls 0 ⟨[], 0, 0⟩
        let sm : String × String :=
          if st.errs ≠ [] then
            (if st.errs.length > 10 then "FAIL" else "WARN",
             "Found " ++ toString st.errs.length ++ " validation errors")
          else ("PASS", "Count matrix validation successful")
        match stat f with
        | Except.error e => Except.error e
        | Except.ok sz =>
          Except.ok
            { dataset_id := sample_name, input_type := "MATRIX", file_path := f.name
              file_size := sz, validation_status := sm.1, validation_message := sm.2
              file_count := 1, sample_name := sample_name
              detected_format := some "Count Matrix (Processed Expression Data)"
              total_reads := some (st.rows : Int), sequence_length := some (st.cols - 1)
              timestamp := now }
  match attempt with
  | Except.ok r => Except.ok r
  | Except.error e =>
    match stat f with
    | Except.error e2 => Except.error e2
    | Except.ok sz =>
      Except.ok
        { dataset_id := sample_name, input_type := "MATRIX", file_path := f.name
          file_size := sz, validation_status := "FAIL"
          validation_message := "Parsing error: " ++ e
          file_count := 1, sample_name := sample_name, timestamp := now }

/-! ### The orchestrator and the cumulative aggregator -/

/-- `IngestPhase.ingest`: detect the type and dispatch to the matching
validator; an UNKNOWN file gets a FAIL record built inline — including a
bare `Path.stat()` call that is outside every `try` block.
`register_dataset` only logs and returns metadata that is discarded. -/
def ingest (now : String) (tool : ToolOutcome) (f : PyFile) (dataset_id : Option String) :
    Except String IngestResult :=
  let did := dataset_id.getD (pyStem f.name)
  let sample_name := pyStem f.name
  let det := detect_input_type f
  if det.1 = "FASTQ" then parse_fastq now f
  else if det.1 = "BAM" then parse_bam now tool f
  else if det.1 = "CELL" then parse_cell now f
  else if det.1 = "MATRIX" then parse_count_matrix now f
  else
    match stat f with
    | Except.error e => Except.error e
    | Except.ok sz =>
      Except.ok
        { dataset_id := did, input_type := "UNKNOWN", file_path := f.name
          file_size := sz, validation_status := "FAIL"
          validation_message := "Unknown file type"
          file_count := 1, sample_name := sample_name, timestamp := now }

/-- The persisted JSON report: a top-level envelope with a write
timestamp, a total count and the full record collection.  Equality of two
`ReportFile` values models byte-for-byte equality of the serialized files
(JSON serialization of the record list is injective and key-ordered). -/
structure ReportFile where
  timestamp : String
  total_files : Nat
  results : List IngestResult
deriving Repr, DecidableEq

/-- `IngestPhase.generate_report`: load the persisted results (an
unreadable or absent file yields the empty collection), append the
in-memory results whose `sample_name` is not already present — the
already-present set is computed once from the persisted records and not
updated while appending — and rewrite the whole envelope with a fresh
timestamp `now`. -/
def generate_report (now : String) (persisted : Option ReportFile)
    (selfResults : List IngestResult) : ReportFile :=
  let prev : List IngestResult := match persisted with
    | some rp => rp.results
    | none => []
  let existing : List String := prev.map (fun r => r.sample_name)
  let added := selfResults.filter (fun r => !(existing.contains r.sample_name))
  let all := prev ++ added
  { timestamp := now, total_files := all.length, results := all }

/-! ### Spec-side definition for the status-tier refinement claim -/

/-- The status-tier policy as worded by the spec: zero diagnostics is
PASS, one to ten is WARN, more than ten is FAIL.  Stated independently of
the source so the validators can be proved to refine it. -/
def specStatusTier (n : Nat) : String :=
  if n = 0 then "PASS" else if n ≤ 10 then "WARN" else "FAIL"

/-! ### Concrete inputs used by the claims -/

def mkText (name ext : String) (ls : List String) : PyFile :=
  { name := name, ext := ext, onDisk := true, size := 100, text := some ls, bytes := none }

/-- A structurally valid FASTQ record. -/
def goodRec : List String := ["@r", "A", "+", "!"]

/-- A FASTQ record whose plus line is wrong: exactly one diagnostic. -/
def badRec : List String := ["@r", "A", "x", "!"]

def file10lines : List String := goodRec ++ (List.replicate 10 badRec).flatten

def file11lines : List String := goodRec ++ (List.replicate 11 badRec).flatten

def fq10 : PyFile := mkText "s.fastq" ".fastq" file10lines

def fq11 : PyFile := mkText "s.fastq" ".fastq" file11lines

/-- 1002 valid FASTQ records (4008 lines). -/
def bigLines : List String := (List.replicate 1002 goodRec).flatten

def bigFq : PyFile := mkText "big.fastq" ".fastq" bigLines

/-- A nonexistent path: `open` and `stat` raise. -/
def missingFq : PyFile :=
  { name := "missing.fastq", ext := ".fastq", onDisk := false, size := 0
    text := none, bytes := none }

/-- An existing file whose text is empty. -/
def emptyFq : PyFile := mkText "e.fastq" ".fastq" []

/-- Tabular file: valid count matrix body. -/
def c4Alines : List String := ["gene_id\ts1"] ++ List.replicate 11 "g\t1" ++ ["g\t1"]

/-- Same first twelve lines as `c4Alines`, non-numeric value on line 13. -/
def c4Blines : List String := ["gene_id\ts1"] ++ List.replicate 11 "g\t1" ++ ["g\tx"]

def c4A : PyFile := mkText "a.tsv" ".tsv" c4Alines

def c4B : PyFile := mkText "a.tsv" ".tsv" c4Blines

/-- Satisfies both the array-intensity header rule and the count-matrix
structure rule. -/
def c5f : PyFile := mkText "p.tsv" ".tsv" ["probe_id\tintensity\tsignal", "P1\t1.0\t2.0"]

/-- Valid CELL file. -/
def cellW : PyFile := mkText "c.tsv" ".tsv" ["probe_id\tgene\tintensity", "P1\tG\t5"]

/-- Count matrix with a non-integer value. -/
def m35 : PyFile := mkText "m.tsv" ".tsv" ["gene_id\ts1", "g1\t3.5"]

/-- Count matrix with a negative value. -/
def mneg : PyFile := mkText "m.tsv" ".tsv" ["gene_id\ts1", "g1\t-3"]

/-- BAM file with valid magic bytes. -/
def bamOK : PyFile :=
  { name := "b.bam", ext := ".bam", onDisk := true, size := 9
    text := none, bytes := some [66, 65, 77, 1, 7, 7] }

/-- BAM file with a corrupted magic prefix (body bytes untouched). -/
def bamBad : PyFile :=
  { name := "b.bam", ext := ".bam", onDisk := true, size := 9
    text := none, bytes := some [0, 65, 77, 1, 7, 7] }

/-- The record produced for `bigFq` (1002 valid records on disk; the
sampling loop stops after record 1001). -/
def rBig : IngestResult :=
  { dataset_id := "big", input_type := "FASTQ", file_path := "big.fastq"
    file_size := 100, validation_status := "PASS"
    validation_message := "FASTQ validation successful"
    file_count := 1, sample_name := "big", is_paired_end := some false
    detected_format := some "FASTQ (Single-end)", total_reads := some 1001
    sequence_length := some 1, timestamp := "T" }

/-- A persisted validation record used by the aggregator claims. -/
def rec1 : IngestResult :=
  { dataset_id := "s1", input_type := "FASTQ", file_path := "s1.fastq"
    file_size := 10, validation_status := "PASS", validation_message := "ok"
    file_count := 1, sample_name := "s1", timestamp := "T0" }

/-! ### Helper lemmas -/

instance {α β : Type} [DecidableEq α] [DecidableEq β] : DecidableEq (Except α β) :=
  fun x y =>
    match x, y with
    | Except.error a, Except.error b =>
      if h : a = b then Decidable.isTrue (h ▸ rfl)
      else Decidable.isFalse (fun c => h (by simpa using c))
    | Except.ok a, Except.ok b =>
      if h : a = b then Decidable.isTrue (h ▸ rfl)
      else Decidable.isFalse (fun c => h (by simpa using c))
    | Except.error _, Except.ok _ => Decidable.isFalse (fun c => Except.noConfusion c)
    | Except.ok _, Except.error _ => Decidable.isFalse (fun c => Except.noConfusion c)

theorem statusOf_eq_tier (errs : List String) :
    (if errs ≠ [] then (if errs.length > 10 then "FAIL" else "WARN") else "PASS")
      = specStatusTier errs.length := by
  by_cases h : errs = []
  · subst h; simp [specStatusTier]
  · have hlen : errs.length ≠ 0 := fun hc => h (List.length_eq_zero.mp hc)
    simp only [ne_eq, h, not_false_eq_true, if_true, specStatusTier, hlen, if_false]
    split_ifs with h1 h2 <;> first | rfl | omega

theorem parse_fastq_body_status (now : String) (f : PyFile) (ls : List String)
    (htext : f.text = some ls) (hdisk : f.onDisk = true)
    (hgate : (validate_fastq_header f).1 = true) :
    (parse_fastq now f).map (fun r => r.validation_status) =
      Except.ok (specStatusTier (fastqLoop ls ⟨[], 0, [], []⟩).errs.length) := by
  simp only [parse_fastq, hgate, htext, stat, hdisk, Bool.not_true, Bool.false_eq_true,
    if_false, if_true, Except.map]
  rw [← statusOf_eq_tier]
  split <;> rename_i h <;> simp [h]

theorem parse_cell_body_status (now : String) (f : PyFile) (ls : List String)
    (htext : f.text = some ls) (hdisk : f.onDisk = true)
    (hgate : (validate_cell_header f).1 = true) :
    (parse_cell now f).map (fun r => r.validation_status) =
      Except.ok (specStatusTier (cellLoop ls 0 ⟨[], 0, 0⟩).errs.length) := by
  simp only [parse_cell, hgate, htext, stat, hdisk, Bool.not_true, Bool.false_eq_true,
    if_false, if_true, Except.map]
  rw [← statusOf_eq_tier]
  split <;> rename_i h <;> simp [h]

theorem parse_count_matrix_body_status (now : String) (f : PyFile) (ls : List String)
    (htext : f.text = some ls) (hdisk : f.onDisk = true)
    (hgate : (validate_count_matrix_structure f).1 = true) :
    (parse_count_matrix now f).map (fun r => r.validation_status) =
      Except.ok (specStatusTier (mtxLoop ls 0 ⟨[], 0, 0⟩).errs.length) := by
  simp only [parse_count_matrix, hgate, htext, stat, hdisk, Bool.not_true, Bool.false_eq_true,
    if_false, if_true, Except.map]
  rw [← statusOf_eq_tier]
  split <;> rename_i h <;> simp [h]

/-! ### Claim theorems -/

/-- C1: the per-file pipeline is claimed never to raise, for any path
including a nonexistent one.  The code violates this: for a nonexistent
path every validator confirmation fails, `ingest` falls into the UNKNOWN
branch and its bare `Path.stat()` call raises `FileNotFoundError`;
`parse_fastq` likewise re-raises from the `stat` call inside its own
`except` handler. -/
theorem c1_ingest_raises_on_missing_file :
    ingest "T0" ToolOutcome.unavailable missingFq none = Except.error "FileNotFoundError" ∧
    parse_fastq "T0" missingFq = Except.error "FileNotFoundError" := by
  exact ⟨rfl, rfl⟩

/-- C2: in each of the three diagnostics-accumulating validators
(`parse_fastq`, `parse_cell`, `parse_count_matrix`), once the header/gate
stage has passed, the reported status is exactly the spec tier of the
diagnostics count (0 is PASS, 1–10 is WARN, more than 10 is FAIL); and a
FASTQ file with exactly 10 violations yields WARN while one with exactly
11 yields FAIL. -/
theorem c2_status_tier_pure_in_diagnostic_count :
    (∀ now f ls, f.text = some ls → f.onDisk = true → (validate_fastq_header f).1 = true →
      (parse_fastq now f).map (fun r => r.validation_status) =
        Except.ok (specStatusTier (fastqLoop ls ⟨[], 0, [], []⟩).errs.length)) ∧
    (∀ now f ls, f.text = some ls → f.onDisk = true → (validate_cell_header f).1 = true →
      (parse_cell now f).map (fun r => r.validation_status) =
        Except.ok (specStatusTier (cellLoop ls 0 ⟨[], 0, 0⟩).errs.length)) ∧
    (∀ now f ls, f.text = some ls → f.onDisk = true →
        (validate_count_matrix_structure f).1 = true →
      (parse_count_matrix now f).map (fun r => r.validation_status) =
        Except.ok (specStatusTier (mtxLoop ls 0 ⟨[], 0, 0⟩).errs.length)) ∧
    (fastqLoop file10lines ⟨[], 0, [], []⟩).errs.length = 10 ∧
    (parse_fastq "T" fq10).map (fun r => r.validation_status) = Except.ok "WARN" ∧
    (fastqLoop file11lines ⟨[], 0, [], []⟩).errs.length = 11 ∧
    (parse_fastq "T" fq11).map (fun r => r.validation_status) = Except.ok "FAIL" := by
  refine ⟨parse_fastq_body_status, parse_cell_body_status, parse_count_matrix_body_status,
    ?_, ?_, ?_, ?_⟩ <;> decide

/-- Witness for C2: the three universal parts applied at concrete inputs
(a FASTQ file with 10 violations, a valid CELL file, a count matrix with a
non-integer value). -/
theorem c2_status_tier_pure_in_diagnostic_count_witness :
    (parse_fastq "T" fq10).map (fun r => r.validation_status) =
      Except.ok (specStatusTier (fastqLoop file10lines ⟨[], 0, [], []⟩).errs.length) ∧
    (parse_cell "T" cellW).map (fun r => r.validation_status) =
      Except.ok (specStatusTier
        (cellLoop ["probe_id\tgene\tintensity", "P1\tG\t5"] 0 ⟨[], 0, 0⟩).errs.length) ∧
    (parse_count_matrix "T" m35).map (fun r => r.validation_status) =
      Except.ok (specStatusTier (mtxLoop ["gene_id\ts1", "g1\t3.5"] 0 ⟨[], 0, 0⟩).errs.length) :=
  ⟨c2_status_tier_pure_in_diagnostic_count.1 "T" fq10 file10lines rfl rfl (by decide),
   c2_status_tier_pure_in_diagnostic_count.2.1 "T" cellW
     ["probe_id\tgene\tintensity", "P1\tG\t5"] rfl rfl (by decide),
   c2_status_tier_pure_in_diagnostic_count.2.2.1 "T" m35
     ["gene_id\ts1", "g1\t3.5"] rfl rfl (by decide)⟩

/-- C9: in the count-matrix body check, the non-integer value 3.5 never
contributes a validation error (it is advisory only, at any row), while
the negative value -3 is recorded as a validation error (within the
five-row recording window the body uses); end to end, a matrix containing
3.5 passes and a matrix containing -3 fails. -/
theorem c9_noninteger_advisory_negative_error :
    (∀ rows lineNum, mtxValCheck rows lineNum "3.5" = []) ∧
    (∀ rows lineNum, rows ≤ 5 →
      mtxValCheck rows lineNum "-3" = ["Line " ++ toString lineNum ++ ": Negative count"]) ∧
    (parse_count_matrix "T" m35).map (fun r => r.validation_status) = Except.ok "PASS" ∧
    (parse_count_matrix "T" mneg).map (fun r => r.validation_status) = Except.ok "FAIL" := by
  refine ⟨?_, ?_, by decide, by decide⟩
  · intro rows lineNum
    have h35 : pyFloat "3.5" = some ⟨35, 1⟩ := by decide
    simp [mtxValCheck, h35, DecVal.isNeg]
  · intro rows lineNum hrows
    have hm3 : pyFloat "-3" = some ⟨-3, 0⟩ := by decide
    simp [mtxValCheck, hm3, hrows, DecVal.isNeg]

/-- Witness for C9: the negative-value part applied at row 1, line 2. -/
theorem c9_noninteger_advisory_negative_error_witness :
    mtxValCheck 1 2 "-3" = ["Line " ++ toString 2 ++ ": Negative count"] :=
  c9_noninteger_advisory_negative_error.2.1 1 2 (by decide)

/-- On a tabular extension, a passing array-intensity header check alone
decides the classification: the Sniffer returns CELL. -/
theorem detect_cell_of_cell_header (f : PyFile)
    (hext : tabularExt (pyLower f.ext) = true)
    (hcell : (validate_cell_header f).1 = true) :
    detect_input_type f = ("CELL", "CELL Microarray Data") := by
  have hcases : pyLower f.ext = ".tsv" ∨ pyLower f.ext = ".csv" ∨ pyLower f.ext = ".txt" := by
    simpa [tabularExt, Bool.or_eq_true, beq_iff_eq, or_assoc] using hext
  have h1 : ¬ pyLower f.ext ∈ fastqExts := by
    rcases hcases with h | h | h <;> rw [h] <;> decide
  have h2 : (pyLower f.ext == ".bam") = false := by
    rcases hcases with h | h | h <;> rw [h] <;> decide
  simp [detect_input_type, h1, hext, hcell, h2]

/-- C5: for a tabular extension the Sniffer attempts the array-intensity
(CELL) confirmation before the count-matrix confirmation, so a file
passing both rules is classified CELL, never MATRIX. -/
theorem c5_cell_tiebreak_over_matrix (f : PyFile)
    (hext : tabularExt (pyLower f.ext) = true)
    (hcell : (validate_cell_header f).1 = true)
    (hmat : (validate_count_matrix_structure f).1 = true) :
    detect_input_type f = ("CELL", "CELL Microarray Data") :=
  detect_cell_of_cell_header f hext hcell

/-- Witness for C5: a concrete tabular file satisfying both the
array-intensity header rule and the count-matrix structure rule is
classified CELL. -/
theorem c5_cell_tiebreak_over_matrix_witness :
    detect_input_type c5f = ("CELL", "CELL Microarray Data") :=
  c5_cell_tiebreak_over_matrix c5f (by decide) (by decide) (by decide)

/-- C7: a failed magic/header confirmation short-circuits to a FAIL record
with the enrichment fields absent; for BAM the result does not depend on
the external tool at all (the body is never consulted), and for FASTQ a
failed header check yields FAIL with no read count. -/
theorem c7_header_magic_failure_short_circuits :
    (∀ now f tool tool', f.onDisk = true → (validate_bam_magic f).1 = false →
      (parse_bam now tool f).map
          (fun r => (r.validation_status, r.total_reads, r.is_paired_end)) =
        Except.ok ("FAIL", none, none) ∧
      parse_bam now tool f = parse_bam now tool' f) ∧
    (∀ now f, f.onDisk = true → (validate_fastq_header f).1 = false →
      (parse_fastq now f).map (fun r => (r.validation_status, r.total_reads)) =
        Except.ok ("FAIL", none)) := by
  constructor
  · intro now f tool tool' hdisk hmagic
    constructor
    · simp [parse_bam, hmagic, stat, hdisk, Except.map]
    · simp [parse_bam, hmagic, stat, hdisk]
  · intro now f hdisk hgate
    simp [parse_fastq, hgate, stat, hdisk, Except.map]

/-- Witness for C7: a BAM file with a corrupted magic prefix FAILs even
when the tool would report a correct body, and identically under an absent
tool; an existing empty FASTQ file FAILs at the header stage. -/
theorem c7_header_magic_failure_short_circuits_witness :
    ((parse_bam "T" (ToolOutcome.exited 0 "10 + 0 in total") bamBad).map
        (fun r => (r.validation_status, r.total_reads, r.is_paired_end)) =
      Except.ok ("FAIL", none, none) ∧
      parse_bam "T" (ToolOutcome.exited 0 "10 + 0 in total") bamBad =
        parse_bam "T" ToolOutcome.unavailable bamBad) ∧
    (parse_fastq "T" emptyFq).map (fun r => (r.validation_status, r.total_reads)) =
      Except.ok ("FAIL", none) :=
  ⟨c7_header_magic_failure_short_circuits.1 "T" bamBad
      (ToolOutcome.exited 0 "10 + 0 in total") ToolOutcome.unavailable rfl (by decide),
   c7_header_magic_failure_short_circuits.2 "T" emptyFq rfl (by decide)⟩

/-- C8: with valid magic bytes, a missing tool, a tool that raises, or a
non-zero tool exit still yields PASS with both enrichment fields absent. -/
theorem c8_tool_unavailability_never_downgrades :
    ∀ now f tool, f.onDisk = true → (validate_bam_magic f).1 = true →
      (tool = ToolOutcome.unavailable ∨ tool = ToolOutcome.raisesErr ∨
        ∃ rc out, tool = ToolOutcome.exited rc out ∧ rc ≠ 0) →
      (parse_bam now tool f).map
          (fun r => (r.validation_status, r.total_reads, r.is_paired_end)) =
        Except.ok ("PASS", none, none) := by
  intro now f tool hdisk hmagic htool
  rcases htool with h | h | ⟨rc, out, h, hrc⟩
  · subst h; simp [parse_bam, hmagic, stat, hdisk, Except.map]
  · subst h; simp [parse_bam, hmagic, stat, hdisk, Except.map]
  · subst h; simp [parse_bam, hmagic, stat, hdisk, Except.map, hrc]

/-- Witness for C8: a valid-magic BAM file with a tool exiting 1. -/
theorem c8_tool_unavailability_never_downgrades_witness :
    (parse_bam "T" (ToolOutcome.exited 1 "") bamOK).map
        (fun r => (r.validation_status, r.total_reads, r.is_paired_end)) =
      Except.ok ("PASS", none, none) :=
  c8_tool_unavailability_never_downgrades "T" bamOK (ToolOutcome.exited 1 "") rfl
    (by decide) (Or.inr (Or.inr ⟨1, "", rfl, by decide⟩))

/-- Records added by a first merge cover every batch identity, so a second
merge of the same batch adds nothing. -/
theorem merge_twice_adds_nothing (prev batch : List IngestResult) :
    batch.filter (fun r =>
      !(((prev ++ batch.filter (fun r =>
            !((prev.map (fun x => x.sample_name)).contains r.sample_name))).map
          (fun x => x.sample_name)).contains r.sample_name)) = [] := by
  apply List.filter_eq_nil_iff.mpr
  intro r hr
  have hmem : r.sample_name ∈
      ((prev ++ batch.filter (fun r =>
          !((prev.map (fun x => x.sample_name)).contains r.sample_name))).map
        (fun x => x.sample_name)) := by
    rw [List.map_append]
    by_cases hc : r.sample_name ∈ prev.map (fun x => x.sample_name)
    · exact List.mem_append.mpr (Or.inl hc)
    · have hkept : r ∈ batch.filter (fun r =>
          !((prev.map (fun x => x.sample_name)).contains r.sample_name)) :=
        List.mem_filter.mpr ⟨hr, by
          simp only [List.contains, Bool.not_eq_true', ← Bool.not_eq_true]
          exact fun hmem => hc (List.elem_iff.mp hmem)⟩
      exact List.mem_append.mpr (Or.inr (List.mem_map_of_mem _ hkept))
  simp only [List.contains, Bool.not_eq_true]
  rw [List.elem_iff.mpr hmem]
  simp

/-- C3 counterexample: the persisted envelope after the second merge is
not byte-for-byte identical — its write timestamp differs. -/
theorem c3_bytewise_idempotence_counterexample :
    generate_report "T2" (some (generate_report "T1" none [rec1])) [rec1] ≠
      generate_report "T1" none [rec1] := by
  decide

/-- C3 amended: merging the same batch twice leaves the record collection
and the total count unchanged; the whole envelope (hence the bytes) is
unchanged exactly when the second write carries the same timestamp. -/
theorem c3_merge_idempotent_on_records (t1 t2 : String) (persisted : Option ReportFile)
    (batch : List IngestResult) :
    (generate_report t2 (some (generate_report t1 persisted batch)) batch).results =
      (generate_report t1 persisted batch).results ∧
    (generate_report t2 (some (generate_report t1 persisted batch)) batch).total_files =
      (generate_report t1 persisted batch).total_files ∧
    (t2 = t1 →
      generate_report t2 (some (generate_report t1 persisted batch)) batch =
        generate_report t1 persisted batch) := by
  have key := merge_twice_adds_nothing
    (match persisted with | some rp => rp.results | none => []) batch
  have hres : (generate_report t2 (some (generate_report t1 persisted batch)) batch).results =
      (generate_report t1 persisted batch).results := by
    simp only [generate_report]
    rw [key, List.append_nil]
  have htot : (generate_report t2 (some (generate_report t1 persisted batch)) batch).total_files =
      (generate_report t1 persisted batch).total_files := by
    simp only [generate_report]
    rw [key, List.append_nil]
  refine ⟨hres, htot, fun h => ?_⟩
  calc generate_report t2 (some (generate_report t1 persisted batch)) batch
      = ⟨t2, (generate_report t2 (some (generate_report t1 persisted batch)) batch).total_files,
          (generate_report t2 (some (generate_report t1 persisted batch)) batch).results⟩ := rfl
    _ = ⟨t1, (generate_report t1 persisted batch).total_files,
          (generate_report t1 persisted batch).results⟩ := by rw [htot, hres, h]
    _ = generate_report t1 persisted batch := rfl

/-- Witness for C3 amended: a concrete double merge, including the
equal-timestamp case in which the envelopes coincide exactly. -/
theorem c3_merge_idempotent_on_records_witness :
    (generate_report "T2" (some (generate_report "T1" none [rec1])) [rec1]).results =
      (generate_report "T1" none [rec1]).results ∧
    (generate_report "T1" (some (generate_report "T1" none [rec1])) [rec1]) =
      generate_report "T1" none [rec1] :=
  ⟨(c3_merge_idempotent_on_records "T1" "T2" none [rec1]).1,
   (c3_merge_idempotent_on_records "T1" "T1" none [rec1]).2.2 rfl⟩

/-- C4 counterexample: two tabular files with the same name and extension
whose first twelve lines coincide are classified differently — the
count-matrix confirmation used during sniffing reads and validates the
whole file, not a fixed small prefix. -/
theorem c4_fixed_prefix_counterexample :
    c4A.name = c4B.name ∧ c4A.ext = c4B.ext ∧
    c4Alines.take 12 = c4Blines.take 12 ∧
    (detect_input_type c4A).1 ≠ (detect_input_type c4B).1 := by
  decide

/-- C4 amended: the FASTQ, BAM and CELL confirmations read only a fixed
prefix; in particular, on a tabular extension a file whose first line
passes the array-intensity header rule is classified CELL from that line
alone, independently of everything after it.  The COUNT_MATRIX
confirmation, by contrast, validates the full body (see the
counterexample). -/
theorem c4_cell_confirmation_reads_first_line_only
    (name ext : String) (dk : Bool) (sz : Nat) (l : String) (rest rest' : List String)
    (hext : tabularExt (pyLower ext) = true)
    (hcell : (validate_cell_header ⟨name, ext, dk, sz, some (l :: rest), none⟩).1 = true) :
    detect_input_type ⟨name, ext, dk, sz, some (l :: rest), none⟩ =
      ("CELL", "CELL Microarray Data") ∧
    detect_input_type ⟨name, ext, dk, sz, some (l :: rest'), none⟩ =
      ("CELL", "CELL Microarray Data") := by
  have hsame : validate_cell_header ⟨name, ext, dk, sz, some (l :: rest'), none⟩ =
      validate_cell_header ⟨name, ext, dk, sz, some (l :: rest), none⟩ := rfl
  exact ⟨detect_cell_of_cell_header _ hext hcell,
    detect_cell_of_cell_header _ hext (by rw [hsame]; exact hcell)⟩

/-- Witness for C4 amended: a concrete array-intensity header line with
two different bodies, both classified CELL. -/
theorem c4_cell_confirmation_reads_first_line_only_witness :
    detect_input_type ⟨"c.tsv", ".tsv", true, 100,
        some ["probe_id\tgene\tintensity", "P1\tG\t5"], none⟩ =
      ("CELL", "CELL Microarray Data") ∧
    detect_input_type ⟨"c.tsv", ".tsv", true, 100,
        some ["probe_id\tgene\tintensity", "X\tY\tZ\tW"], none⟩ =
      ("CELL", "CELL Microarray Data") :=
  c4_cell_confirmation_reads_first_line_only "c.tsv" ".tsv" true 100
    "probe_id\tgene\tintensity" ["P1\tG\t5"] ["X\tY\tZ\tW"] (by decide) (by decide)

/-- A structurally valid record contributes no diagnostics. -/
theorem fqRecordErrs_goodRec (cnt : Nat) : fqRecordErrs cnt "@r" "A" "+" "!" = [] := by
  have h1 : pyStarts "@r" "@" = true := by decide
  have h2 : pyStarts "+" "+" = true := by decide
  have h3 : ("A" : String).length = ("!" : String).length := by decide
  have h4 : ("A" : String).data.all nucOk = true := by decide
  simp [fqRecordErrs, h1, h2, h3, h4]

/-- One valid record advances the loop: the count rises by one and the
loop breaks exactly when the new count exceeds 1000. -/
theorem fastqLoop_goodRec (rest : List String) (c : Nat) (e : List String) (ln : List Nat) :
    fastqLoop ("@r" :: "A" :: "+" :: "!" :: rest) ⟨[], c, e, ln⟩ =
      if c + 1 > 1000 then ⟨["@r", "A", "+", "!"], c + 1, e, ln ++ [1]⟩
      else fastqLoop rest ⟨[], c + 1, e, ln ++ [1]⟩ := by
  have hlen : ("A" : String).length = 1 := by decide
  simp only [fastqLoop, List.nil_append, List.cons_append, fqRecordErrs_goodRec,
    List.append_nil, hlen]

/-- Processing `n` further valid records with `c + n ≤ 1000` never breaks. -/
theorem fastqLoop_goodRecs (n : Nat) :
    ∀ (rest : List String) (c : Nat) (e : List String) (ln : List Nat), c + n ≤ 1000 →
      fastqLoop ((List.replicate n goodRec).flatten ++ rest) ⟨[], c, e, ln⟩ =
        fastqLoop rest ⟨[], c + n, e, ln ++ List.replicate n 1⟩ := by
  induction n with
  | zero => intro rest c e ln h; simp
  | succ k ih =>
    intro rest c e ln h
    rw [List.replicate_succ, List.flatten_cons, List.append_assoc]
    show fastqLoop ("@r" :: "A" :: "+" :: "!" ::
      ((List.replicate k goodRec).flatten ++ rest)) ⟨[], c, e, ln⟩ = _
    rw [fastqLoop_goodRec, if_neg (by omega), ih _ (c + 1) e (ln ++ [1]) (by omega),
      show c + 1 + k = c + (k + 1) from by omega]
    simp [List.replicate_succ, List.append_assoc]

/-- Running the loop on 1002 valid records stops with count 1001. -/
theorem fastqLoop_bigLines :
    fastqLoop bigLines ⟨[], 0, [], []⟩ = ⟨goodRec, 1001, [], List.replicate 1001 1⟩ := by
  have h : bigLines = (List.replicate 1000 goodRec).flatten ++
      (List.replicate 2 goodRec).flatten := by
    rw [bigLines, show (1002 : Nat) = 1000 + 2 from rfl, List.replicate_add,
      List.flatten_append]
  have h2 : (List.replicate 2 goodRec).flatten = "@r" :: "A" :: "+" :: "!" :: goodRec := by
    decide
  rw [h, fastqLoop_goodRecs 1000 _ 0 [] [] (by omega), h2, fastqLoop_goodRec,
    if_pos (by omega)]
  have h3 : ([] : List Nat) ++ List.replicate 1000 1 ++ [1] = List.replicate 1001 1 := by
    rw [List.nil_append, ← List.replicate_succ']
  rw [h3]
  rfl

/-- The loop count never passes 1001: the break fires while processing
record 1001. -/
theorem fastqLoop_cnt_le (ls : List String) :
    ∀ st : FqState, st.cnt ≤ 1000 → (fastqLoop ls st).cnt ≤ 1001 := by
  induction ls with
  | nil => intro st h; simp only [fastqLoop]; omega
  | cons l rest ih =>
    intro st h
    simp only [fastqLoop]
    split
    · split
      · rename_i hcnt
        simp only []
        omega
      · rename_i hcnt
        exact ih _ (by simp only []; omega)
    · exact ih _ (by simpa using h)

set_option maxRecDepth 100000 in
/-- Evaluating the validator on the 1002-record file yields the record
`rBig` (status PASS, 1001 reads counted). -/
theorem parse_fastq_bigFq : parse_fastq "T" bigFq = Except.ok rBig := by
  have hgate : (validate_fastq_header bigFq).1 = true := by decide
  have htext : bigFq.text = some bigLines := rfl
  have hdisk : bigFq.onDisk = true := rfl
  simp only [parse_fastq, hgate, htext, stat, hdisk, Bool.not_true, Bool.false_eq_true,
    if_false, if_true]
  rw [fastqLoop_bigLines]
  simp only [List.sum_replicate, List.length_replicate, smul_eq_mul, mul_one]
  rfl

/-- C6 counterexample: a file with 1002 valid records reports
`total_reads = 1001`, exceeding the claimed cap of 1000 — the loop breaks
only once `read_count > 1000`, i.e. after processing record 1001. -/
theorem c6_counterexample_total_reads_1001 :
    (parse_fastq "T" bigFq).map (fun r => r.total_reads) = Except.ok (some 1001) ∧
    ¬ ((1001 : Int) ≤ 1000) := by
  constructor
  · rw [parse_fastq_bigFq]
    rfl
  · decide

/-- C6 amended: the sampling cap is 1001 records, so for every file the
reported `total_reads` is at most 1001. -/
theorem c6_sampling_cap_is_1001 :
    ∀ (now : String) (f : PyFile) (r : IngestResult) (n : Int),
      parse_fastq now f = Except.ok r → r.total_reads = some n → n ≤ 1001 := by
  intro now f r n hok htr
  simp only [parse_fastq] at hok
  split at hok
  · rename_i r' heq
    injection hok with hok'
    subst hok'
    split at heq
    · split at heq
      · exact absurd heq (by simp)
      · injection heq with h2
        subst h2
        simp at htr
    · split at heq
      · exact absurd heq (by simp)
      · rename_i ls hls
        split at heq
        · exact absurd heq (by simp)
        · injection heq with h2
          subst h2
          simp only [Option.some.injEq] at htr
          have hb : (fastqLoop ls ⟨[], 0, [], []⟩).cnt ≤ 1001 :=
            fastqLoop_cnt_le ls _ (by simp)
          omega
  · rename_i e heq
    split at hok
    · exact absurd hok (by simp)
    · injection hok with h2
      subst h2
      simp at htr

/-- Witness for C6 amended: the cap theorem applied to the concrete
1002-record file. -/
theorem c6_sampling_cap_is_1001_witness : (1001 : Int) ≤ 1001 :=
  c6_sampling_cap_is_1001 "T" bigFq rBig 1001 parse_fastq_bigFq rfl

theorem dataAppend (a b : String) : (a ++ b).data = a.data ++ b.data := by
  cases a; cases b; rfl

theorem ne_of_head (a b : String) (h : a.data.head? ≠ b.data.head?) : a ≠ b :=
  fun e => h (by rw [e])

/-- C10: the four `readline().strip()` results always form a list of
exactly four strings (readline yields the empty string at end of file), so
`validate_fastq_header` can never return the
"File has fewer than 4 lines" message — that branch is unreachable — and
an empty file is instead rejected by the header-sentinel check. -/
theorem c10_short_file_branch_unreachable :
    (∀ ls, (fqHeaderLines ls).length = 4) ∧
    (∀ f, (validate_fastq_header f).2 ≠
      "File has fewer than 4 lines (incomplete FASTQ record)") ∧
    validate_fastq_header emptyFq = (false, "Header line must start with @, got: ") := by
  refine ⟨?_, ?_, by decide⟩
  · intro ls; simp [fqHeaderLines]
  · intro f
    cases htext : f.text with
    | none =>
      simp only [validate_fastq_header, htext]
      decide
    | some ls =>
      have h4 : (fqHeaderLines ls).length = 4 := by simp [fqHeaderLines]
      simp only [validate_fastq_header, htext, h4]
      rw [if_neg (show ¬ ((4 : Nat) < 4) by decide)]
      repeat' split
      all_goals
        first
        | decide
        | (apply ne_of_head
           simp only [dataAppend]
           intro hc
           injection hc with hch
           exact absurd hch (by decide))

/-- Witness for C10: the unreachability statement applied at the empty
file. -/
theorem c10_short_file_branch_unreachable_witness :
    (validate_fastq_header emptyFq).2 ≠
      "File has fewer than 4 lines (incomplete FASTQ record)" :=
  c10_short_file_branch_unreachable.2.1 emptyFq

end Ingest
